import Mathlib

/-!
Shallow embedding of the keyboard key-management core of the openrazer daemon
(`daemon/openrazer_daemon/misc/key_event_management.py`, class
`KeyboardKeyManager`).

Modelling decisions:
* Timestamps (`datetime.datetime`) are natural numbers; the fixed TTL
  (`datetime.timedelta(seconds=2)`) is the field `temp_expire_time`.
* The key-symbol table `KEY_MAPPING` (imported from `openrazer_daemon.keyboard`,
  a module outside the given sources) is an abstract field
  `KEY_MAP : Nat → Option String`; a `none` result models the Python
  `KeyError` raised by `self.KEY_MAP[key_id]`.
* The parent device object and its `binding_manager` are modelled as explicit
  state: `getGameMode`/`setGameMode` read and write the field `gameMode`,
  `getBrightness`/`setBrightness` the field `brightness`, `addAction` appends
  to the log `actions`, and the fire-and-forget thread that calls
  `binding_manager.key_press` appends to the log `dispatched`.
* Python truthiness of `macro_key` (`elif self._parent.binding_manager.macro_key:`)
  is `macroKeyTruthy`: `none` and `some 0` are falsy.
* A raised `KeyError` is the `Option KError` component of the result; the state
  component carries the mutations already performed when the error escapes
  (in the source, the front eviction has already mutated the list in place).
-/

/-- Error raised by the symbol-table lookup `self.KEY_MAP[key_id]`. -/
inductive KError where
  | keyError (code : Nat)
  deriving Repr, DecidableEq

/-- State of `self._parent.binding_manager` as used by the key manager. -/
structure BindingManager where
  macro_mode : Bool
  macro_key : Option Nat
  deriving Repr, DecidableEq

/-- Observable state of the parent device object: the values behind
`getGameMode`/`setGameMode`, `getBrightness`/`setBrightness`,
`getActiveProfile`, `getActiveMap`, plus logs of the `addAction` calls and of
the keys dispatched to `binding_manager.key_press`. -/
structure Parent where
  gameMode : Bool
  brightness : Int
  activeProfile : String
  activeMap : String
  binding_manager : BindingManager
  actions : List (String × String × String × String × String)
  dispatched : List (Nat × String)
  deriving Repr, DecidableEq

/-- State of a `KeyboardKeyManager`: the capture flag
`_temp_key_store_active`, the buffer `_temp_key_store` of
(expiry time, symbol) pairs, the TTL `_temp_expire_time`, the symbol table
`KEY_MAP` and the parent object. -/
structure KeyManagerState where
  temp_key_store_active : Bool
  temp_key_store : List (Nat × String)
  temp_expire_time : Nat
  KEY_MAP : Nat → Option String
  parent : Parent

/-- The front-eviction loop shared by the `temp_key_store` getter and
`key_action`: `while self._temp_key_store[0][0] < now: self._temp_key_store.pop(0)`
(the `IndexError` on an empty list ends the loop). -/
def evictFront (now : Nat) : List (Nat × String) → List (Nat × String)
  | [] => []
  | (t, s) :: rest => if t < now then evictFront now rest else (t, s) :: rest

/-- Python truthiness of `self._parent.binding_manager.macro_key`. -/
def macroKeyTruthy : Option Nat → Bool
  | none => false
  | some k => k != 0

/-- The getter `temp_key_store`: evict expired entries from the front, then
return a copy of the remaining buffer (the lock is irrelevant in this
sequential model). -/
def temp_key_store_read (st : KeyManagerState) (now : Nat) :
    KeyManagerState × List (Nat × String) :=
  let store1 := evictFront now st.temp_key_store
  ({ st with temp_key_store := store1 }, store1)

/-- First part of `key_action`: front eviction, then
`if key_press == 'press' and self.temp_key_store_state:
   self._temp_key_store.append((now + self._temp_expire_time, self.KEY_MAP[key_id]))`,
where a missing table entry raises `KeyError`. -/
def recordStep (st : KeyManagerState) (now : Nat) (key_id : Nat)
    (key_press : String) : KeyManagerState × Option KError :=
  let st1 := { st with temp_key_store := evictFront now st.temp_key_store }
  if key_press = "press" ∧ st.temp_key_store_active = true then
    match st.KEY_MAP key_id with
    | none => (st1, some (KError.keyError key_id))
    | some sym =>
        ({ st1 with
            temp_key_store :=
              st1.temp_key_store ++ [(now + st.temp_expire_time, sym)] }, none)
  else (st1, none)

/-- The reserved-key `if`/`elif` chain of `key_action` (lines 238-281 of the
source): GAMEMODE toggle, brightness up/down with clamp, MACROMODE flip, the
macro-mode recording logic, and the default asynchronous dispatch to
`binding_manager.key_press`. -/
def interceptKeys (st : KeyManagerState) (key_id : Nat)
    (key_press : String) : KeyManagerState :=
  if key_id = 189 then
    -- game_mode = self._parent.getGameMode(); self._parent.setGameMode(not game_mode)
    let game_mode := st.parent.gameMode
    { st with parent := { st.parent with gameMode := !game_mode } }
  else if key_id = 194 ∨ key_id = 190 then
    let cb0 := st.parent.brightness
    let cb1 := if key_id = 194 then cb0 + 10 else cb0 - 10
    let cb2 := max (min cb1 100) 0
    { st with parent := { st.parent with brightness := cb2 } }
  else if key_id = 188 then
    { st with parent := { st.parent with binding_manager :=
        { st.parent.binding_manager with
            macro_mode := !st.parent.binding_manager.macro_mode } } }
  else if st.parent.binding_manager.macro_mode = true then
    if key_id = 183 ∨ key_id = 184 ∨ key_id = 185 ∨ key_id = 186 ∨ key_id = 187 then
      if st.parent.binding_manager.macro_key = none then
        { st with parent := { st.parent with binding_manager :=
            { st.parent.binding_manager with macro_key := some key_id } } }
      else
        -- "Nested macros are not supported" (warning only)
        st
    else if macroKeyTruthy st.parent.binding_manager.macro_key = true then
      let profile := st.parent.activeProfile
      let mapping := st.parent.activeMap
      let key := st.parent.binding_manager.macro_key.getD 0
      if key_press = "press" then
        { st with parent := { st.parent with actions :=
            st.parent.actions ++
              [(profile, mapping, toString key, "key", toString key_id)] } }
      else if key_press = "release" then
        { st with parent := { st.parent with actions :=
            st.parent.actions ++
              [(profile, mapping, toString key, "release", toString key_id)] } }
      else st
    else
      -- "On-the-fly macros are only supported for macro keys" (warning)
      { st with parent := { st.parent with binding_manager :=
          { st.parent.binding_manager with macro_mode := false } } }
  else
    -- threading.Thread(target=self._parent.binding_manager.key_press, ...)
    { st with parent := { st.parent with dispatched :=
        st.parent.dispatched ++ [(key_id, key_press)] } }

/-- `KeyboardKeyManager.key_action(key_id, key_press)`: eviction and optional
buffer append (which may raise `KeyError`), then the reserved-key chain. -/
def key_action (st : KeyManagerState) (now : Nat) (key_id : Nat)
    (key_press : String) : KeyManagerState × Option KError :=
  match recordStep st now key_id key_press with
  | (st1, none) => (interceptKeys st1 key_id key_press, none)
  | (st1, some e) => (st1, some e)

/-- Notification messages delivered to `KeyboardKeyManager.notify`: either not
a tuple, or a tuple `(kind, device, name, params...)` whose device component is
irrelevant to the handler. -/
inductive NotifyMsg where
  | notTuple
  | message (kind : String) (device : String) (name : String) (params : List String)

/-- `KeyboardKeyManager.notify(msg)`: warns on non-tuples, inspects
`msg[0] == 'effect'` and `msg[2] == 'setRipple'`, and in every branch performs
no state change (the `setRipple` wiring is commented out: `pass`). -/
def notify (st : KeyManagerState) (m : NotifyMsg) : KeyManagerState :=
  match m with
  | .notTuple => st
  | .message kind _ name _ =>
      if kind = "effect" then
        if name = "setRipple" then
          st
        else st
      else st

/-! ## Concrete fixture states used to instantiate the theorems -/

/-- Total symbol table: every code mapped (used where lookups must succeed). -/
def keyMapFull : Nat → Option String := fun k => some (String.append "KEY_" (toString k))

/-- Empty symbol table: every lookup raises `KeyError`. -/
def keyMapNone : Nat → Option String := fun _ => none

/-- Binding manager at rest: macro mode off, no macro key. -/
def bm0 : BindingManager := { macro_mode := false, macro_key := none }

/-- Parent device at rest. -/
def parent0 : Parent :=
  { gameMode := false, brightness := 50, activeProfile := "prof"
    activeMap := "map0", binding_manager := bm0, actions := [], dispatched := [] }

/-- Key manager at rest: capture off, empty buffer, TTL 2. -/
def st0 : KeyManagerState :=
  { temp_key_store_active := false, temp_key_store := [], temp_expire_time := 2
    KEY_MAP := keyMapFull, parent := parent0 }

/-- Capture active but nothing mapped: every press raises `KeyError`. -/
def stNoMap : KeyManagerState :=
  { st0 with temp_key_store_active := true, KEY_MAP := keyMapNone }

/-- Sorted two-entry buffer with expiry times 3 and 7. -/
def stSorted : KeyManagerState :=
  { st0 with temp_key_store := [(3, "KEY_A"), (7, "KEY_B")] }

/-- Buffer holding a single entry whose expiry time is exactly 5. -/
def stEdge : KeyManagerState :=
  { st0 with temp_key_store := [(5, "KEY_A")] }

/-- Macro mode on with macro key M1 (code 183) already chosen. -/
def stMacro : KeyManagerState :=
  { st0 with parent := { parent0 with
      binding_manager := { macro_mode := true, macro_key := some 183 } } }

/-- Invalid macro state: macro mode on but no macro key chosen. -/
def stBadMacro : KeyManagerState :=
  { st0 with parent := { parent0 with
      binding_manager := { macro_mode := true, macro_key := none } } }

/-- Brightness fixtures for the clamp boundary cases. -/
def st95 : KeyManagerState :=
  { st0 with parent := { parent0 with brightness := 95 } }

/-- Brightness fixture at 5 for the lower clamp boundary. -/
def st5 : KeyManagerState :=
  { st0 with parent := { parent0 with brightness := 5 } }

/-! ## Basic lemmas about the embedded operations -/

/-- The buffer step never touches the parent object. -/
theorem recordStep_parent (st : KeyManagerState) (now key_id : Nat)
    (key_press : String) :
    (recordStep st now key_id key_press).1.parent = st.parent := by
  unfold recordStep
  split
  · split <;> rfl
  · rfl

/-- The buffer step never changes the capture flag. -/
theorem recordStep_active (st : KeyManagerState) (now key_id : Nat)
    (key_press : String) :
    (recordStep st now key_id key_press).1.temp_key_store_active =
      st.temp_key_store_active := by
  unfold recordStep
  split
  · split <;> rfl
  · rfl

/-- The buffer step never changes the symbol table. -/
theorem recordStep_KEY_MAP (st : KeyManagerState) (now key_id : Nat)
    (key_press : String) :
    (recordStep st now key_id key_press).1.KEY_MAP = st.KEY_MAP := by
  unfold recordStep
  split
  · split <;> rfl
  · rfl

/-- The buffer step never changes the TTL. -/
theorem recordStep_ttl (st : KeyManagerState) (now key_id : Nat)
    (key_press : String) :
    (recordStep st now key_id key_press).1.temp_expire_time =
      st.temp_expire_time := by
  unfold recordStep
  split
  · split <;> rfl
  · rfl

/-- The reserved-key chain never touches the temporal key buffer. -/
theorem interceptKeys_store (st : KeyManagerState) (key_id : Nat)
    (key_press : String) :
    (interceptKeys st key_id key_press).temp_key_store = st.temp_key_store := by
  unfold interceptKeys
  split <;> try rfl
  split <;> try rfl
  split <;> try rfl
  split <;> try rfl
  split <;> try rfl
  · split <;> rfl
  · split <;> try rfl
    split <;> try rfl
    split <;> rfl

/-- The reserved-key chain never changes the capture flag. -/
theorem interceptKeys_active (st : KeyManagerState) (key_id : Nat)
    (key_press : String) :
    (interceptKeys st key_id key_press).temp_key_store_active =
      st.temp_key_store_active := by
  unfold interceptKeys
  split <;> try rfl
  split <;> try rfl
  split <;> try rfl
  split <;> try rfl
  split <;> try rfl
  · split <;> rfl
  · split <;> try rfl
    split <;> try rfl
    split <;> rfl

/-- When the buffer-append step cannot raise a lookup error, `key_action`
reduces to the reserved-key chain applied after the buffer step. -/
theorem key_action_eq_intercept (st : KeyManagerState) (now key_id : Nat)
    (key_press : String)
    (hmap : key_press = "press" ∧ st.temp_key_store_active = true →
      (st.KEY_MAP key_id).isSome) :
    key_action st now key_id key_press =
      (interceptKeys (recordStep st now key_id key_press).1 key_id key_press,
        none) := by
  by_cases hcond : key_press = "press" ∧ st.temp_key_store_active = true
  · have hsome := hmap hcond
    cases hkm : st.KEY_MAP key_id with
    | none => rw [hkm] at hsome; simp at hsome
    | some sym => simp [key_action, recordStep, hcond, hkm]
  · simp [key_action, recordStep, hcond]

/-- With a sorted buffer, front eviction removes every entry whose expiry time
is strictly earlier than `now`. -/
theorem evictFront_no_expired (now : Nat) (store : List (Nat × String))
    (hsorted : store.Pairwise (fun a b => a.1 ≤ b.1)) :
    ∀ e ∈ evictFront now store, now ≤ e.1 := by
  induction store with
  | nil => intro e he; simp [evictFront] at he
  | cons hd tl ih =>
      intro e he
      rw [evictFront] at he
      by_cases hlt : hd.1 < now
      · simp only [hlt, if_pos] at he
        exact ih (List.Pairwise.of_cons hsorted) e he
      · simp only [hlt, if_neg, not_false_iff] at he
        rcases List.mem_cons.mp he with rfl | hmem
        · exact Nat.le_of_not_lt hlt
        · exact Nat.le_trans (Nat.le_of_not_lt hlt)
            (List.rel_of_pairwise_cons hsorted hmem)

/-- The reserved-key chain never changes the symbol table. -/
theorem interceptKeys_KEY_MAP (st : KeyManagerState) (key_id : Nat)
    (key_press : String) :
    (interceptKeys st key_id key_press).KEY_MAP = st.KEY_MAP := by
  unfold interceptKeys
  split <;> try rfl
  split <;> try rfl
  split <;> try rfl
  split <;> try rfl
  split <;> try rfl
  · split <;> rfl
  · split <;> try rfl
    split <;> try rfl
    split <;> rfl

/-- The buffer of the state returned by `key_action` is exactly the buffer
produced by the eviction/append step (the reserved-key chain never touches
it). -/
theorem key_action_store (st : KeyManagerState) (now key_id : Nat)
    (key_press : String) :
    (key_action st now key_id key_press).1.temp_key_store =
      (recordStep st now key_id key_press).1.temp_key_store := by
  unfold key_action
  rcases h : recordStep st now key_id key_press with ⟨st1, e⟩
  cases e
  · exact interceptKeys_store st1 key_id key_press
  · rfl

/-- `key_action` never changes the capture flag. -/
theorem key_action_active (st : KeyManagerState) (now key_id : Nat)
    (key_press : String) :
    (key_action st now key_id key_press).1.temp_key_store_active =
      st.temp_key_store_active := by
  unfold key_action
  rcases h : recordStep st now key_id key_press with ⟨st1, e⟩
  have h1 : st1.temp_key_store_active = st.temp_key_store_active := by
    have h2 := recordStep_active st now key_id key_press
    rw [h] at h2; exact h2
  cases e
  · rw [interceptKeys_active]; exact h1
  · exact h1

/-- `key_action` never changes the symbol table. -/
theorem key_action_KEY_MAP (st : KeyManagerState) (now key_id : Nat)
    (key_press : String) :
    (key_action st now key_id key_press).1.KEY_MAP = st.KEY_MAP := by
  unfold key_action
  rcases h : recordStep st now key_id key_press with ⟨st1, e⟩
  have h1 : st1.KEY_MAP = st.KEY_MAP := by
    have h2 := recordStep_KEY_MAP st now key_id key_press
    rw [h] at h2; exact h2
  cases e
  · rw [interceptKeys_KEY_MAP]; exact h1
  · exact h1

/-- After the eviction/append step, every buffered entry expires at `now` or
later, provided the incoming buffer was sorted by expiry. -/
theorem recordStep_no_expired (st : KeyManagerState) (now key_id : Nat)
    (key_press : String)
    (hsorted : st.temp_key_store.Pairwise (fun a b => a.1 ≤ b.1)) :
    ∀ e ∈ (recordStep st now key_id key_press).1.temp_key_store, now ≤ e.1 := by
  have hev := evictFront_no_expired now st.temp_key_store hsorted
  unfold recordStep
  by_cases hcond : key_press = "press" ∧ st.temp_key_store_active = true
  · cases hkm : st.KEY_MAP key_id with
    | none => simpa [hcond, hkm] using hev
    | some sym =>
        intro e he
        simp only [hcond, if_pos, hkm] at he
        rcases List.mem_append.mp he with hmem | hnew
        · exact hev e hmem
        · rcases List.mem_singleton.mp hnew with rfl
          exact Nat.le_add_right now st.temp_expire_time
  · simpa [hcond] using hev

/-- The GAMEMODE branch: whatever the action string, `key_action` with code
189 writes back the negation of the parent's game-mode flag (provided the
optional buffer append cannot raise). -/
theorem key_action_gamemode (st : KeyManagerState) (now : Nat)
    (key_press : String)
    (hmap : key_press = "press" ∧ st.temp_key_store_active = true →
      (st.KEY_MAP 189).isSome) :
    (key_action st now 189 key_press).1.parent.gameMode =
      !st.parent.gameMode ∧
    (key_action st now 189 key_press).2 = none := by
  rw [key_action_eq_intercept st now 189 key_press hmap]
  have hp := recordStep_parent st now 189 key_press
  constructor
  · show (interceptKeys _ 189 key_press).parent.gameMode = _
    unfold interceptKeys
    simp [hp]
  · rfl

/-- The reserved-key chain never overwrites an already chosen macro key. -/
theorem interceptKeys_macro_key_some (st : KeyManagerState) (key_id : Nat)
    (key_press : String) (A : Nat)
    (hkey : st.parent.binding_manager.macro_key = some A) :
    (interceptKeys st key_id key_press).parent.binding_manager.macro_key =
      some A := by
  unfold interceptKeys
  split_ifs <;> simp_all

/-- `key_action` never overwrites an already chosen macro key, on any input
and on both the normal and the error path. -/
theorem key_action_macro_key_some (st : KeyManagerState) (now key_id : Nat)
    (key_press : String) (A : Nat)
    (hkey : st.parent.binding_manager.macro_key = some A) :
    (key_action st now key_id key_press).1.parent.binding_manager.macro_key =
      some A := by
  unfold key_action
  rcases h : recordStep st now key_id key_press with ⟨st1, e⟩
  have hp : st1.parent = st.parent := by
    have h2 := recordStep_parent st now key_id key_press
    rw [h] at h2; exact h2
  cases e
  · exact interceptKeys_macro_key_some st1 key_id key_press A
      (by rw [hp]; exact hkey)
  · show st1.parent.binding_manager.macro_key = some A
    rw [hp]; exact hkey

/-! ## Claim theorems -/

/-- C1, counterexample to the claim as stated: at `now = 5` an entry whose
expiry time is 5 (so ≤ now) survives both the `temp_key_store` getter and
`key_action`, because the source evicts with a strict comparison
(`store[0][0] < now`). -/
theorem c1_entry_at_now_survives :
    (temp_key_store_read stEdge 5).2 = [(5, "KEY_A")] ∧
    (key_action stEdge 5 100 "release").1.temp_key_store = [(5, "KEY_A")] ∧
    (5 : Nat) ≤ 5 := by
  refine ⟨?_, ?_, le_refl 5⟩ <;> rfl

/-- C1 (amended): on both the read path (`temp_key_store` getter) and the
write path (`key_action`), the front eviction removes every entry whose
expiry time is strictly earlier than `now`; given the buffer's front-first
(non-decreasing expiry) ordering, no entry with expiry `< now` remains after
either operation. -/
theorem c1_evict_strict_both_paths (st : KeyManagerState) (now key_id : Nat)
    (key_press : String)
    (hsorted : st.temp_key_store.Pairwise (fun a b => a.1 ≤ b.1)) :
    (∀ e ∈ (temp_key_store_read st now).1.temp_key_store, now ≤ e.1) ∧
    (∀ e ∈ (temp_key_store_read st now).2, now ≤ e.1) ∧
    (∀ e ∈ (key_action st now key_id key_press).1.temp_key_store,
      now ≤ e.1) := by
  have hev := evictFront_no_expired now st.temp_key_store hsorted
  refine ⟨?_, ?_, ?_⟩
  · simpa [temp_key_store_read] using hev
  · simpa [temp_key_store_read] using hev
  · rw [key_action_store]
    exact recordStep_no_expired st now key_id key_press hsorted

/-- C1 witness: the amended statement evaluated on a concrete sorted buffer. -/
theorem c1_evict_strict_both_paths_witness :
    stSorted.temp_key_store.Pairwise (fun a b => a.1 ≤ b.1) ∧
    ((∀ e ∈ (temp_key_store_read stSorted 5).1.temp_key_store, 5 ≤ e.1) ∧
     (∀ e ∈ (temp_key_store_read stSorted 5).2, 5 ≤ e.1) ∧
     (∀ e ∈ (key_action stSorted 5 100 "release").1.temp_key_store,
       5 ≤ e.1)) :=
  ⟨by decide, c1_evict_strict_both_paths stSorted 5 100 "release" (by decide)⟩

/-- C2: a key code with no entry in the symbol table, while capture is active
and the action is a press, surfaces as a `KeyError` from `key_action`. -/
theorem c2_unmapped_press_raises (st : KeyManagerState) (now key_id : Nat)
    (hactive : st.temp_key_store_active = true)
    (hmap : st.KEY_MAP key_id = none) :
    (key_action st now key_id "press").2 =
      some (KError.keyError key_id) := by
  simp [key_action, recordStep, hactive, hmap]

/-- C2 witness: code 200 with an empty symbol table and capture active. -/
theorem c2_unmapped_press_raises_witness :
    (key_action stNoMap 0 200 "press").2 = some (KError.keyError 200) :=
  c2_unmapped_press_raises stNoMap 0 200 rfl rfl

/-- C10: with capture active, a press of an unmapped code aborts at the
symbol lookup: the result of `key_action` is exactly the state after the
initial front eviction together with the `KeyError`, so the parent (game
mode, brightness, macro state, action log, dispatch log) is untouched and no
entry is appended to the buffer. -/
theorem c10_lookup_error_frame (st : KeyManagerState) (now key_id : Nat)
    (hactive : st.temp_key_store_active = true)
    (hmap : st.KEY_MAP key_id = none) :
    key_action st now key_id "press" =
      ({ st with temp_key_store := evictFront now st.temp_key_store },
        some (KError.keyError key_id)) := by
  simp [key_action, recordStep, hactive, hmap]

/-- C10 witness: the abort frame evaluated at a concrete state. -/
theorem c10_lookup_error_frame_witness :
    key_action stNoMap 3 200 "press" =
      ({ stNoMap with temp_key_store := evictFront 3 stNoMap.temp_key_store },
        some (KError.keyError 200)) :=
  c10_lookup_error_frame stNoMap 3 200 rfl rfl

/-- C3: for every action type in {press, release, autorepeat, unknown},
`key_action` with the GAMEMODE code 189 writes back the logical negation of
the parent's game-mode flag and raises nothing — the toggle is not gated on
the action being a press. (The hypothesis `hmap` excludes only the unrelated
buffer-append lookup error of a press while capture is active.) -/
theorem c3_gamemode_toggle_all_actions (st : KeyManagerState) (now : Nat)
    (key_press : String)
    (haction : key_press ∈ ["press", "release", "autorepeat", "unknown"])
    (hmap : key_press = "press" ∧ st.temp_key_store_active = true →
      (st.KEY_MAP 189).isSome) :
    (key_action st now 189 key_press).1.parent.gameMode =
      !st.parent.gameMode ∧
    (key_action st now 189 key_press).2 = none :=
  key_action_gamemode st now key_press hmap

/-- C3 witness: an autorepeat toggles game mode just like a press. -/
theorem c3_gamemode_toggle_all_actions_witness :
    (key_action st0 7 189 "autorepeat").1.parent.gameMode =
      !st0.parent.gameMode ∧
    (key_action st0 7 189 "autorepeat").2 = none :=
  c3_gamemode_toggle_all_actions st0 7 "autorepeat" (by decide) (by decide)

/-- C4: starting from brightness `b ∈ [0, 100]`, BRIGHTNESSUP (code 194)
writes back `min (b + 10) 100` and BRIGHTNESSDOWN (code 190) writes back
`max (b - 10) 0`. -/
theorem c4_brightness_clamped (st : KeyManagerState) (now : Nat)
    (key_press : String) (b : Int)
    (hb : st.parent.brightness = b) (hlo : 0 ≤ b) (hhi : b ≤ 100)
    (hmapUp : key_press = "press" ∧ st.temp_key_store_active = true →
      (st.KEY_MAP 194).isSome)
    (hmapDown : key_press = "press" ∧ st.temp_key_store_active = true →
      (st.KEY_MAP 190).isSome) :
    (key_action st now 194 key_press).1.parent.brightness =
      min (b + 10) 100 ∧
    (key_action st now 190 key_press).1.parent.brightness =
      max (b - 10) 0 := by
  constructor
  · rw [key_action_eq_intercept st now 194 key_press hmapUp]
    have hp := recordStep_parent st now 194 key_press
    show (interceptKeys _ 194 key_press).parent.brightness = _
    unfold interceptKeys
    simp only [hp]
    norm_num
    rw [hb]
    omega
  · rw [key_action_eq_intercept st now 190 key_press hmapDown]
    have hp := recordStep_parent st now 190 key_press
    show (interceptKeys _ 190 key_press).parent.brightness = _
    unfold interceptKeys
    simp only [hp]
    norm_num
    rw [hb]
    omega

/-- C4 witness: from brightness 95 BRIGHTNESSUP yields 100, and from
brightness 5 BRIGHTNESSDOWN yields 0. -/
theorem c4_brightness_clamped_witness :
    ((key_action st95 0 194 "press").1.parent.brightness =
       min ((95 : Int) + 10) 100 ∧
     (key_action st95 0 190 "press").1.parent.brightness =
       max ((95 : Int) - 10) 0) ∧
    ((key_action st5 0 194 "press").1.parent.brightness =
       min ((5 : Int) + 10) 100 ∧
     (key_action st5 0 190 "press").1.parent.brightness =
       max ((5 : Int) - 10) 0) :=
  ⟨c4_brightness_clamped st95 0 "press" 95 rfl (by decide) (by decide)
      (by decide) (by decide),
   c4_brightness_clamped st5 0 "press" 5 rfl (by decide) (by decide)
      (by decide) (by decide)⟩

/-- C8: two consecutive GAMEMODE presses return the parent's game-mode flag
to its original value (the toggle is an involution); the model's parent
returns from `getGameMode` exactly the value last written by `setGameMode`. -/
theorem c8_gamemode_double_toggle (st : KeyManagerState) (now1 now2 : Nat)
    (hmap : st.temp_key_store_active = true → (st.KEY_MAP 189).isSome) :
    (key_action (key_action st now1 189 "press").1 now2 189
        "press").1.parent.gameMode = st.parent.gameMode := by
  set st1 := (key_action st now1 189 "press").1 with hst1
  have h1 : st1.parent.gameMode = !st.parent.gameMode :=
    (key_action_gamemode st now1 "press" (fun h => hmap h.2)).1
  have hmap1 : st1.temp_key_store_active = true → (st1.KEY_MAP 189).isSome := by
    intro ha
    rw [hst1, key_action_KEY_MAP]
    apply hmap
    rw [hst1, key_action_active] at ha
    exact ha
  have h2 : (key_action st1 now2 189 "press").1.parent.gameMode =
      !st1.parent.gameMode :=
    (key_action_gamemode st1 now2 "press" (fun h => hmap1 h.2)).1
  rw [h2, h1, Bool.not_not]

/-- C8 witness: the double toggle evaluated on the resting fixture. -/
theorem c8_gamemode_double_toggle_witness :
    (key_action (key_action st0 0 189 "press").1 1 189
        "press").1.parent.gameMode = st0.parent.gameMode :=
  c8_gamemode_double_toggle st0 0 1 (by decide)

/-- C5: `macro_key` only ever transitions from none to a value inside this
core — whenever it already holds `some A` it still holds `some A` after any
`key_action` — and in particular, with macro mode on, pressing another
macro-slot code B while `macro_key = some A` produces only a warning: the
whole parent object (macro key included) is unchanged and no error is
raised. -/
theorem c5_macro_key_never_overwritten (st : KeyManagerState)
    (now key_id : Nat) (key_press : String) (A : Nat)
    (hkey : st.parent.binding_manager.macro_key = some A) :
    (key_action st now key_id key_press).1.parent.binding_manager.macro_key =
      some A ∧
    (st.parent.binding_manager.macro_mode = true →
      (key_id = 183 ∨ key_id = 184 ∨ key_id = 185 ∨ key_id = 186 ∨
        key_id = 187) →
      (key_press = "press" ∧ st.temp_key_store_active = true →
        (st.KEY_MAP key_id).isSome) →
      (key_action st now key_id key_press).1.parent = st.parent ∧
      (key_action st now key_id key_press).2 = none) := by
  refine ⟨key_action_macro_key_some st now key_id key_press A hkey, ?_⟩
  intro hmode hslot hmap
  rw [key_action_eq_intercept st now key_id key_press hmap]
  have hp := recordStep_parent st now key_id key_press
  refine ⟨?_, rfl⟩
  show (interceptKeys _ key_id key_press).parent = st.parent
  unfold interceptKeys
  rcases hslot with rfl | rfl | rfl | rfl | rfl <;> simp [hp, hmode, hkey]

/-- C5 witness: with macro key M1 (183) chosen, pressing M2 (184) changes
nothing. -/
theorem c5_macro_key_never_overwritten_witness :
    (key_action stMacro 0 184 "press").1.parent.binding_manager.macro_key =
      some 183 ∧
    ((key_action stMacro 0 184 "press").1.parent = stMacro.parent ∧
     (key_action stMacro 0 184 "press").2 = none) :=
  ⟨(c5_macro_key_never_overwritten stMacro 0 184 "press" 183 rfl).1,
   (c5_macro_key_never_overwritten stMacro 0 184 "press" 183 rfl).2 rfl
     (by decide) (by decide)⟩

/-- C6: in macro mode with `macro_key = some K` (K nonzero, as every macro
slot code is), a non-reserved, non-slot code appends on press exactly one
"key" action bound to K carrying the code, on release exactly one "release"
action, and on autorepeat nothing; none of the three dispatches the key to
the binding manager. -/
theorem c6_macro_recording_actions (st : KeyManagerState) (now key_id K : Nat)
    (hmode : st.parent.binding_manager.macro_mode = true)
    (hkey : st.parent.binding_manager.macro_key = some K)
    (hK : K ≠ 0)
    (hres : key_id ∉ [183, 184, 185, 186, 187, 188, 189, 190, 194])
    (hmap : st.temp_key_store_active = true → (st.KEY_MAP key_id).isSome) :
    ((key_action st now key_id "press").1.parent.actions =
       st.parent.actions ++
         [(st.parent.activeProfile, st.parent.activeMap, toString K, "key",
           toString key_id)] ∧
     (key_action st now key_id "press").1.parent.dispatched =
       st.parent.dispatched) ∧
    ((key_action st now key_id "release").1.parent.actions =
       st.parent.actions ++
         [(st.parent.activeProfile, st.parent.activeMap, toString K,
           "release", toString key_id)] ∧
     (key_action st now key_id "release").1.parent.dispatched =
       st.parent.dispatched) ∧
    ((key_action st now key_id "autorepeat").1.parent.actions =
       st.parent.actions ∧
     (key_action st now key_id "autorepeat").1.parent.dispatched =
       st.parent.dispatched) := by
  simp only [List.mem_cons, List.not_mem_nil, or_false, not_or] at hres
  obtain ⟨h183, h184, h185, h186, h187, h188, h189, h190, h194⟩ := hres
  refine ⟨?_, ?_, ?_⟩ <;>
    [rw [key_action_eq_intercept st now key_id "press" (fun h => hmap h.2)];
     rw [key_action_eq_intercept st now key_id "release" (fun h => hmap h.2)];
     rw [key_action_eq_intercept st now key_id "autorepeat"
       (fun h => hmap h.2)]]
  all_goals
    unfold interceptKeys
    simp [recordStep_parent, hmode, hkey, macroKeyTruthy, hK, h183, h184,
      h185, h186, h187, h188, h189, h190, h194]

/-- C6 witness: recording the ordinary code 30 against macro key 183. -/
theorem c6_macro_recording_actions_witness :
    ((key_action stMacro 0 30 "press").1.parent.actions =
       stMacro.parent.actions ++
         [(stMacro.parent.activeProfile, stMacro.parent.activeMap,
           toString (183 : Nat), "key", toString (30 : Nat))] ∧
     (key_action stMacro 0 30 "press").1.parent.dispatched =
       stMacro.parent.dispatched) ∧
    ((key_action stMacro 0 30 "release").1.parent.actions =
       stMacro.parent.actions ++
         [(stMacro.parent.activeProfile, stMacro.parent.activeMap,
           toString (183 : Nat), "release", toString (30 : Nat))] ∧
     (key_action stMacro 0 30 "release").1.parent.dispatched =
       stMacro.parent.dispatched) ∧
    ((key_action stMacro 0 30 "autorepeat").1.parent.actions =
       stMacro.parent.actions ∧
     (key_action stMacro 0 30 "autorepeat").1.parent.dispatched =
       stMacro.parent.dispatched) :=
  c6_macro_recording_actions stMacro 0 30 183 rfl rfl (by decide) (by decide)
    (by decide)

/-- C7: in macro mode with no macro key chosen, a non-reserved, non-slot
code forces macro mode back off and has no other effect on the parent: the
resulting parent equals the original with only `macro_mode` set to false,
and no error is raised. -/
theorem c7_invalid_macro_state_failsafe (st : KeyManagerState)
    (now key_id : Nat) (key_press : String)
    (hmode : st.parent.binding_manager.macro_mode = true)
    (hkey : st.parent.binding_manager.macro_key = none)
    (hres : key_id ∉ [183, 184, 185, 186, 187, 188, 189, 190, 194])
    (hmap : key_press = "press" ∧ st.temp_key_store_active = true →
      (st.KEY_MAP key_id).isSome) :
    (key_action st now key_id key_press).1.parent =
      { st.parent with binding_manager :=
          { st.parent.binding_manager with macro_mode := false } } ∧
    (key_action st now key_id key_press).2 = none := by
  simp only [List.mem_cons, List.not_mem_nil, or_false, not_or] at hres
  obtain ⟨h183, h184, h185, h186, h187, h188, h189, h190, h194⟩ := hres
  rw [key_action_eq_intercept st now key_id key_press hmap]
  refine ⟨?_, rfl⟩
  have hp := recordStep_parent st now key_id key_press
  show (interceptKeys _ key_id key_press).parent = _
  unfold interceptKeys
  simp [hp, hmode, hkey, macroKeyTruthy, h183, h184, h185, h186, h187, h188,
    h189, h190, h194]

/-- C7 witness: code 30 in the invalid macro state exits macro mode. -/
theorem c7_invalid_macro_state_failsafe_witness :
    (key_action stBadMacro 0 30 "release").1.parent =
      { stBadMacro.parent with binding_manager :=
          { stBadMacro.parent.binding_manager with macro_mode := false } } ∧
    (key_action stBadMacro 0 30 "release").2 = none :=
  c7_invalid_macro_state_failsafe stBadMacro 0 30 "release" rfl rfl
    (by decide) (by decide)

/-- C9: `notify` leaves the whole key-manager state unchanged on every
message — in particular the capture flag `temp_key_store_state` keeps its
prior value; the `setRipple` wiring is inert. -/
theorem c9_notify_state_unchanged (st : KeyManagerState) (m : NotifyMsg) :
    (notify st m).temp_key_store_active = st.temp_key_store_active ∧
    notify st m = st := by
  have h : notify st m = st := by
    cases m <;> simp [notify]
  exact ⟨by rw [h], h⟩
